import Mathlib

/-!
Shallow embedding of the socket interception engine of the subtrace tracer
(source file cmd/run/socket/socket.go).

Each syscall facade method (Connect, Bind, Listen, Accept, Close, Errno,
CreateSocket) is embedded as a pure Lean function over an explicit inode
state.  Kernel syscall outcomes, net dial outcomes and the outcomes of the
compare-and-swap on the inode's atomic state slot are supplied by an
explicit environment record, so a single sequential function captures every
control-flow path of the Go code.  Errnos are natural numbers (0 = success);
a non-nil Go error return is modelled by a distinguished failure value.
-/

namespace SubtraceSocket

/-! Errno constants (Linux, x86-64), as used via golang.org/x/sys/unix. -/

def EBADF : Nat := 9
def EINVAL : Nat := 22
def ENOSYS : Nat := 38
def ERESTART : Nat := 85
def EADDRINUSE : Nat := 98
def EISCONN : Nat := 106
def ECONNREFUSED : Nat := 111
def EALREADY : Nat := 114
def EINPROGRESS : Nat := 115

def AF_INET : Nat := 2
def AF_INET6 : Nat := 10

/-! Addresses: a netip.Addr is an IPv4 address, a plain IPv6 address, an
IPv4-mapped IPv6 address, or the invalid zero value.  The bits field holds
the numeric value of the underlying 4-byte or 16-byte address. -/

inductive IPKind where
  | v4
  | v6
  | v4in6
  | invalid
  deriving DecidableEq, Repr

structure IPAddr where
  kind : IPKind
  bits : Nat
  deriving DecidableEq, Repr

/-- netip.Addr.Is4: true exactly for IPv4 addresses (false for 4-in-6). -/
def IPAddr.Is4 (a : IPAddr) : Bool := decide (a.kind = IPKind.v4)

/-- netip.Addr.Is6: true for IPv6 addresses, including IPv4-mapped ones. -/
def IPAddr.Is6 (a : IPAddr) : Bool :=
  decide (a.kind = IPKind.v6) || decide (a.kind = IPKind.v4in6)

/-- netip.Addr.Is4In6: true exactly for IPv4-mapped IPv6 addresses. -/
def IPAddr.Is4In6 (a : IPAddr) : Bool := decide (a.kind = IPKind.v4in6)

structure AddrPort where
  addr : IPAddr
  port : Nat
  deriving DecidableEq, Repr

/-- Both Socket.Accept and the Listen dispatch loop rewrite an IPv4-mapped
IPv6 address into the equivalent plain IPv4 address (the Is4In6 / As4
conversion in socket.go). -/
def normalizeAddrPort (a : AddrPort) : AddrPort :=
  if a.addr.Is4In6 then ⟨⟨IPKind.v4, a.addr.bits⟩, a.port⟩ else a

/-- Modelled from the spec: the reference-counted FD handle of section 4.1
(package subtrace.dev/cmd/run/fd is not among the provided sources; only its
callers in socket.go are).  Attributes: a reference count and a closing bit.
IncRef fails once the closing bit is set; ClosingIncRef succeeds exactly
once, atomically setting the closing bit. -/
structure FDState where
  refs : Nat
  closing : Bool
  deriving DecidableEq, Repr

/-- Modelled from the spec: inc_ref succeeds iff the closing bit is clear. -/
def FDState.incRefOk (f : FDState) : Bool := !f.closing

/-- Modelled from the spec: closing_inc_ref succeeds exactly once, setting
the closing bit; it fails whenever the bit is already set. -/
def FDState.closingIncRef (f : FDState) : Option FDState :=
  if f.closing then none else some ⟨f.refs + 1, true⟩

def FDState.decRef (f : FDState) : FDState := ⟨f.refs - 1, f.closing⟩

/-! The shadow state of an inode (the ImmutableState tagged union, whose
fields are read and written throughout socket.go).  Temp bind sockets and
proxies are identified by numeric ids. -/

inductive SockState where
  | passive (bind : Option Nat) (errno : Nat)
  | connecting (bind : Nat) (peer : AddrPort)
  | connected (proxy : Nat)
  | listening (active : Bool)
  | closed
  deriving DecidableEq, Repr

/-- Outcome of a fallible kernel or net call whose error, when present, may
or may not unwrap to a syscall.Errno via errors.As. -/
inductive SysResult where
  | ok
  | errno (e : Nat)
  | unrepresentable
  deriving DecidableEq, Repr

/-- Return value of a facade method: either the errno returned to the
target (ret 0 means success) or a non-nil Go error (an infrastructure
failure that never reaches the target as an errno). -/
inductive OpResult where
  | ret (e : Nat)
  | fail (msg : String)
  deriving DecidableEq, Repr

/-! Socket.Errno: getsockopt(SO_ERROR) interception.  It loads the state
and, in the Passive state, returns the latched errno; it performs no state
transition of any kind. -/

def errnoOp (f : FDState) (st : SockState) : Nat × SockState :=
  if !f.incRefOk then (EBADF, st)
  else
    match st with
    | SockState.passive _ e => (e, st)
    | _ => (0, st)

/-! CreateSocket: domain check, socket(2), fstat(2), fresh Passive inode. -/

structure CreateEnv where
  socketOk : Bool
  fstatOk : Bool
  ino : Nat
  deriving DecidableEq, Repr

inductive CreateResult where
  | sock (domain : Nat) (ino : Nat) (st : SockState)
  | err (msg : String)
  deriving DecidableEq, Repr

def createSocket (domain typ : Nat) (env : CreateEnv) : CreateResult :=
  if domain ≠ AF_INET ∧ domain ≠ AF_INET6 then CreateResult.err "unsupported domain"
  else if !env.socketOk then CreateResult.err "socket syscall"
  else if !env.fstatOk then CreateResult.err "fstat syscall"
  else CreateResult.sock domain env.ino (SockState.passive none 0)

/-! Socket.Connect.  The environment carries the outcomes of every external
interaction along Connect's control flow: the fcntl F_GETFL call, the
getRemoteBindAddr call on the previous state, temp bind socket creation and
ephemeral bind, both CAS attempts on the inode slot, dummy listener
creation, the dummy listener's Accept, the external net.Dial, and the
loopback connect(2) issued on the target's fd against the dummy listener. -/

structure ConnectEnv where
  /-- fcntl(F_GETFL) on the target fd succeeded. -/
  fcntlOk : Bool
  /-- O_NONBLOCK was set in the flags returned by fcntl. -/
  nonblock : Bool
  /-- getRemoteBindAddr returned a non-nil Go error. -/
  getBindFail : Bool
  /-- errno returned by getRemoteBindAddr (0 when none). -/
  getBindErrno : Nat
  /-- fd id handed out by newTempBindSocket when a fresh one is needed. -/
  freshBind : Nat
  /-- newTempBindSocket succeeded. -/
  newBindOk : Bool
  /-- bindEphemeral on the fresh temp bind socket succeeded. -/
  bindEphOk : Bool
  /-- the CAS installing Connecting over the loaded Passive state won. -/
  casOk : Bool
  /-- newDummyListener succeeded. -/
  dummyOk : Bool
  /-- the dummy listener's Accept call failed. -/
  dummyAcceptFail : Bool
  /-- outcome of the external net.Dial to the requested peer. -/
  dial : SysResult
  /-- the CAS installing the dial outcome over Connecting won. -/
  cas2Ok : Bool
  /-- a concurrent closer already set the temp bind socket's closing bit,
  so the cleanup ClosingIncRef in Connect fails. -/
  bindAlreadyClosed : Bool
  /-- errno yielded by the loopback connect(2) to the dummy listener. -/
  dummyErrno : Nat
  /-- id of the proxy created for this connect. -/
  proxyId : Nat
  /-- state installed by the interfering winner when a CAS is lost. -/
  interfState : SockState
  deriving DecidableEq, Repr

structure ConnectOut where
  result : OpResult
  state : SockState
  /-- fd ids of temp bind sockets closed by this call (including the
  completion goroutine). -/
  closedFds : List Nat
  /-- whether any CAS on the inode state slot was attempted. -/
  casAttempted : Bool
  deriving DecidableEq, Repr

/-- Completion goroutine of Connect (socket.go lines 217-299): waits for the
dummy accept and the external dial, computes the next state and the errno
sent on the errnoConnect channel, attempts the second CAS, and decides
whether the Connecting state's temp bind socket gets closed.  Returns the
channel errno, the final inode state, and the list of closed bind fds. -/
def connectFinish (midBind : Nat) (peer : AddrPort) (env : ConnectEnv) :
    Nat × SockState × List Nat :=
  let mid : SockState := SockState.connecting midBind peer
  let step : Nat × SockState × Bool :=
    if env.dummyAcceptFail then
      -- errDummyAccept is checked before errDialExternal; no next state.
      (ENOSYS, mid, true)
    else
      match env.dial with
      | SysResult.ok =>
        let next := SockState.connected env.proxyId
        if env.cas2Ok then (0, next, true) else (ERESTART, env.interfState, true)
      | SysResult.errno e =>
        let next := SockState.passive (some midBind) e
        if env.cas2Ok then (e, next, false) else (ERESTART, env.interfState, true)
      | SysResult.unrepresentable =>
        -- the dial error does not unwrap to a syscall.Errno; no next state.
        (ENOSYS, mid, true)
  let closed := if step.2.2 && !env.bindAlreadyClosed then [midBind] else []
  (step.1, step.2.1, closed)

/-- Tail of Connect from the first CAS onward, with midBind the Connecting
state's temp bind socket and prevBind the bind parked in the loaded Passive
state (none means midBind was freshly created by this call). -/
def connectCore (midBind : Nat) (addr : AddrPort)
    (env : ConnectEnv) (prevBind : Option Nat) : ConnectOut :=
  if !env.casOk then
    -- CAS loss: close the temp bind socket iff this call created it.
    let closed :=
      if prevBind.isNone && !env.bindAlreadyClosed then [midBind] else []
    ⟨OpResult.ret ERESTART, env.interfState, closed, true⟩
  else if !env.dummyOk then
    ⟨OpResult.fail "create dummy listener", SockState.connecting midBind addr, [], true⟩
  else
    let fin := connectFinish midBind addr env
    -- the loopback connect(2) to the dummy listener happens next; for a
    -- blocking target socket the call then waits on the errnoConnect
    -- channel and returns its value when nonzero, otherwise it returns the
    -- loopback connect's errno immediately.
    let result := if !env.nonblock && fin.1 ≠ 0 then fin.1 else env.dummyErrno
    ⟨OpResult.ret result, fin.2.1, fin.2.2, true⟩

def connectOp (f : FDState) (st : SockState) (addr : AddrPort)
    (env : ConnectEnv) : ConnectOut :=
  if !f.incRefOk then ⟨OpResult.ret EBADF, st, [], false⟩
  else
    match st with
    | SockState.connected _ => ⟨OpResult.ret EISCONN, st, [], false⟩
    | SockState.connecting _ _ =>
      if !env.fcntlOk then ⟨OpResult.fail "fcntl", st, [], false⟩
      else if !env.nonblock then ⟨OpResult.ret EALREADY, st, [], false⟩
      else ⟨OpResult.ret EINPROGRESS, st, [], false⟩
    | SockState.listening _ => ⟨OpResult.ret EINVAL, st, [], false⟩
    | SockState.closed => ⟨OpResult.ret EBADF, st, [], false⟩
    | SockState.passive prevBind _ =>
      if !env.fcntlOk then ⟨OpResult.fail "fcntl", st, [], false⟩
      else if env.getBindFail then ⟨OpResult.fail "get bind addr", st, [], false⟩
      else if env.getBindErrno ≠ 0 then ⟨OpResult.ret env.getBindErrno, st, [], false⟩
      else
        match prevBind with
        | some b => connectCore b addr env (some b)
        | none =>
          if !env.newBindOk then ⟨OpResult.fail "create temp bind socket", st, [], false⟩
          else if !env.bindEphOk then
            ⟨OpResult.fail "bind ephemeral", st, [env.freshBind], false⟩
          else connectCore env.freshBind addr env none

/-! Socket.Bind.  The address-family check happens after the state switch;
only then is a temp bind socket created (or the parked one reused), bound
with bind(2), and the new Passive state installed by CAS. -/

structure BindEnv where
  /-- fd id handed out by newTempBindSocket when a fresh one is needed. -/
  freshBind : Nat
  /-- newTempBindSocket succeeded. -/
  newBindOk : Bool
  /-- IncRef on the temp bind socket succeeded. -/
  bindIncRefOk : Bool
  /-- outcome of the bind(2) syscall on the temp bind socket. -/
  bindRes : SysResult
  /-- the CAS installing the new Passive state won. -/
  casOk : Bool
  /-- state installed by the interfering winner when the CAS is lost. -/
  interfState : SockState
  deriving DecidableEq, Repr

structure BindOut where
  result : OpResult
  state : SockState
  /-- temp bind socket fd ids created by this call. -/
  createdFds : List Nat
  /-- fd ids closed by this call. -/
  closedFds : List Nat
  /-- whether a CAS on the inode state slot was attempted. -/
  casAttempted : Bool
  deriving DecidableEq, Repr

/-- Tail of Bind once the temp bind socket b is available; prevBind is the
parked bind of the loaded Passive state (none means b is fresh) and created
lists the fds this call created. -/
def bindCore (st : SockState) (b : Nat) (env : BindEnv)
    (prevBind : Option Nat) (created : List Nat) : BindOut :=
  if !env.bindIncRefOk then ⟨OpResult.ret EBADF, st, created, [], false⟩
  else
    match env.bindRes with
    | SysResult.unrepresentable =>
      -- the fresh temp socket is closed before the errno interpretation.
      let closed := if prevBind.isNone then [b] else []
      ⟨OpResult.fail "bind", st, created, closed, false⟩
    | SysResult.errno e =>
      let closed := if prevBind.isNone then [b] else []
      let next := SockState.passive prevBind e
      if env.casOk then ⟨OpResult.ret e, next, created, closed, true⟩
      else ⟨OpResult.ret ERESTART, env.interfState, created, closed, true⟩
    | SysResult.ok =>
      let next := SockState.passive (some b) 0
      if env.casOk then ⟨OpResult.ret 0, next, created, [], true⟩
      else
        let closed := if prevBind.isNone then [b] else []
        ⟨OpResult.ret ERESTART, env.interfState, created, closed, true⟩

def bindOp (f : FDState) (st : SockState) (domain : Nat) (addr : AddrPort)
    (env : BindEnv) : BindOut :=
  if !f.incRefOk then ⟨OpResult.ret EBADF, st, [], [], false⟩
  else
    match st with
    | SockState.connected _ => ⟨OpResult.ret EINVAL, st, [], [], false⟩
    | SockState.connecting _ _ => ⟨OpResult.ret EINVAL, st, [], [], false⟩
    | SockState.listening _ => ⟨OpResult.ret EINVAL, st, [], [], false⟩
    | SockState.closed => ⟨OpResult.ret EBADF, st, [], [], false⟩
    | SockState.passive prevBind _ =>
      if domain = AF_INET && !addr.addr.Is4 then
        ⟨OpResult.ret EINVAL, st, [], [], false⟩
      else if domain = AF_INET6 && !addr.addr.Is6 then
        ⟨OpResult.ret EINVAL, st, [], [], false⟩
      else
        match prevBind with
        | some b => bindCore st b env (some b) []
        | none =>
          if !env.newBindOk then
            ⟨OpResult.fail "create temp bind socket", st, [], [], false⟩
          else bindCore st env.freshBind env none [env.freshBind]

/-! Socket.Listen.  Clamps the backlog to a minimum of 8, binds the target
fd to a loopback ephemeral address, starts the external listener, closes
the parked bind socket once the listener is live, installs Listening by
CAS, and creates the bounded channel between the accept loop and the
dispatch loop. -/

structure ListenEnv where
  /-- bindEphemeral on the target fd returned a Go error. -/
  bindEphFail : Bool
  /-- getRemoteBindAddr returned a non-nil Go error. -/
  getBindFail : Bool
  /-- errno returned by getRemoteBindAddr (0 when none). -/
  getBindErrno : Nat
  /-- outcome of net.Listen for the external-side listener. -/
  lisRes : SysResult
  /-- ClosingIncRef on the parked bind socket succeeded. -/
  prevBindCloseOk : Bool
  /-- the CAS installing Listening over the loaded Passive state won. -/
  casOk : Bool
  /-- state installed by the interfering winner when the CAS is lost. -/
  interfState : SockState
  deriving DecidableEq, Repr

structure ListenOut where
  result : OpResult
  state : SockState
  /-- fd ids closed by this call. -/
  closedFds : List Nat
  /-- capacity of the accept-to-dispatch buffer channel, when created. -/
  bufferCap : Option Int
  /-- whether a CAS on the inode state slot was attempted. -/
  casAttempted : Bool
  deriving DecidableEq, Repr

def listenOp (f : FDState) (st : SockState) (backlog : Int)
    (env : ListenEnv) : ListenOut :=
  if !f.incRefOk then ⟨OpResult.ret EBADF, st, [], none, false⟩
  else
    match st with
    | SockState.connected _ => ⟨OpResult.ret EINVAL, st, [], none, false⟩
    | SockState.connecting _ _ => ⟨OpResult.ret EINVAL, st, [], none, false⟩
    | SockState.listening _ => ⟨OpResult.ret 0, st, [], none, false⟩
    | SockState.closed => ⟨OpResult.ret EBADF, st, [], none, false⟩
    | SockState.passive prevBind _ =>
      let backlog := if backlog < 8 then 8 else backlog
      if env.bindEphFail then ⟨OpResult.fail "bind ephemeral", st, [], none, false⟩
      else if env.getBindFail then ⟨OpResult.fail "get bind addr", st, [], none, false⟩
      else if env.getBindErrno ≠ 0 then
        ⟨OpResult.ret env.getBindErrno, st, [], none, false⟩
      else
        match env.lisRes with
        | SysResult.errno e => ⟨OpResult.ret e, st, [], none, false⟩
        | SysResult.unrepresentable =>
          ⟨OpResult.fail "external side listen", st, [], none, false⟩
        | SysResult.ok =>
          let closedPrev :=
            match prevBind with
            | some b => if env.prevBindCloseOk then [b] else []
            | none => []
          if env.casOk then
            ⟨OpResult.ret 0, SockState.listening true, closedPrev,
              some (backlog * 2), true⟩
          else
            ⟨OpResult.ret ERESTART, env.interfState, closedPrev, none, true⟩

/-! The accept/dispatch rendezvous.  The dispatch loop dials the loopback
ephemeral address for each externally accepted connection and registers the
resulting proxy in the Listening state's backlog map keyed by the
normalized process-side local address; Socket.Accept looks the proxy up
under the normalized peer address that accept4 reported.  The sync.Map of
channels with LoadOrStore/Delete semantics is modelled as a multiset of
in-flight proxies per address, held as an association list. -/

structure ProxyM where
  /-- local address of the process-side connection, as reported by the net
  package on the dispatcher's dial. -/
  processLocal : AddrPort
  pid : Nat
  deriving DecidableEq, Repr

abbrev BacklogMap := List (AddrPort × List ProxyM)

def backlogInsert : BacklogMap → AddrPort → ProxyM → BacklogMap
  | [], a, p => [(a, [p])]
  | (k, ps) :: rest, a, p =>
    if k = a then (k, ps ++ [p]) :: rest
    else (k, ps) :: backlogInsert rest a p

def backlogTake : BacklogMap → AddrPort → Option (ProxyM × BacklogMap)
  | [], _ => none
  | (k, ps) :: rest, a =>
    if k = a then
      match ps with
      | [] => none
      | p :: tl => some (p, (k, tl) :: rest)
    else
      match backlogTake rest a with
      | none => none
      | some (p, rest2) => some (p, (k, ps) :: rest2)

/-- Registration step of the dispatch loop (socket.go lines 605-630): the
proxy is filed under its normalized process-side local address. -/
def dispatchRegister (m : BacklogMap) (p : ProxyM) : BacklogMap :=
  backlogInsert m (normalizeAddrPort p.processLocal) p

/-- Invariant of the backlog map: every registered proxy sits under the key
obtained by normalizing its process-side local address, and that address is
never an IPv4-mapped IPv6 address (the dispatcher dials the loopback
ephemeral address in the socket's own family, so the net package reports a
plain IPv4 or plain IPv6 local address). -/
def BacklogInv (m : BacklogMap) : Prop :=
  ∀ k ps, (k, ps) ∈ m → ∀ p ∈ ps,
    normalizeAddrPort p.processLocal = k ∧ p.processLocal.addr.Is4In6 = false

/-! Socket.Accept. -/

structure AcceptEnv where
  /-- outcome of the accept4 syscall on the target fd. -/
  accept4Res : SysResult
  /-- peer sockaddr reported by accept4 (before normalization). -/
  peerRaw : AddrPort
  /-- the fstat after the channel receive succeeded. -/
  fstatOk : Bool
  deriving DecidableEq, Repr

inductive AcceptOutcome where
  /-- Accept returned an errno or a Go error without producing a socket. -/
  | err (r : OpResult)
  /-- Accept is blocked waiting on the backlog channel. -/
  | blocked
  /-- Accept produced a child socket paired with proxy p; assertOk records
  whether the comparison of the proxy's process-side local address against
  the accept4-reported peer address held (its failure panics). -/
  | child (st : SockState) (p : ProxyM) (assertOk : Bool)
  deriving DecidableEq, Repr

structure AcceptOut where
  outcome : AcceptOutcome
  state : SockState
  backlog : BacklogMap
  /-- whether a CAS on the inode state slot was attempted. -/
  casAttempted : Bool
  deriving DecidableEq, Repr

def acceptOp (f : FDState) (st : SockState) (m : BacklogMap)
    (env : AcceptEnv) : AcceptOut :=
  if !f.incRefOk then ⟨AcceptOutcome.err (OpResult.ret EBADF), st, m, false⟩
  else
    match st with
    | SockState.passive _ _ =>
      ⟨AcceptOutcome.err (OpResult.ret EINVAL), st, m, false⟩
    | SockState.connected _ =>
      ⟨AcceptOutcome.err (OpResult.ret EINVAL), st, m, false⟩
    | SockState.connecting _ _ =>
      ⟨AcceptOutcome.err (OpResult.ret EINVAL), st, m, false⟩
    | SockState.closed =>
      ⟨AcceptOutcome.err (OpResult.ret EBADF), st, m, false⟩
    | SockState.listening active =>
      if !active then ⟨AcceptOutcome.err (OpResult.ret EINVAL), st, m, false⟩
      else
        match env.accept4Res with
        | SysResult.errno e =>
          ⟨AcceptOutcome.err (OpResult.ret e), st, m, false⟩
        | SysResult.unrepresentable =>
          ⟨AcceptOutcome.err (OpResult.fail "interpret accept error"), st, m, false⟩
        | SysResult.ok =>
          let a := normalizeAddrPort env.peerRaw
          match backlogTake m a with
          | none => ⟨AcceptOutcome.blocked, st, m, false⟩
          | some (p, m2) =>
            let assertOk := decide (p.processLocal = a)
            if !env.fstatOk then
              ⟨AcceptOutcome.err (OpResult.fail "stat after channel receive"),
                st, m2, false⟩
            else
              ⟨AcceptOutcome.child (SockState.connected p.pid) p assertOk,
                st, m2, false⟩

/-! Socket.Close.  ClosingIncRef on the target fd gates everything: its
failure returns EBADF immediately.  After the close(2), if this fd was the
inode's last alias, the state is swapped to Closed (the CAS loop retries
until it wins; observing an already-Closed state panics). -/

structure CloseEnv where
  /-- outcome of close(2) on the target fd. -/
  closeRes : SysResult
  /-- Inode.remove reported this socket as the inode's last alias. -/
  lastAlias : Bool
  deriving DecidableEq, Repr

inductive CloseOutcome where
  | ret (e : Nat)
  | panicked (msg : String)
  deriving DecidableEq, Repr

structure CloseOut where
  outcome : CloseOutcome
  fd : FDState
  state : SockState
  /-- whether a CAS on the inode state slot was attempted. -/
  casAttempted : Bool
  deriving DecidableEq, Repr

def closeOp (f : FDState) (st : SockState) (env : CloseEnv) : CloseOut :=
  match f.closingIncRef with
  | none => ⟨CloseOutcome.ret EBADF, f, st, false⟩
  | some f2 =>
    match env.closeRes with
    | SysResult.unrepresentable =>
      ⟨CloseOutcome.panicked "cannot interpret close error as errno",
        f2.decRef, st, false⟩
    | SysResult.errno e => ⟨CloseOutcome.ret e, f2.decRef, st, false⟩
    | SysResult.ok =>
      if !env.lastAlias then ⟨CloseOutcome.ret 0, f2.decRef, st, false⟩
      else
        match st with
        | SockState.closed =>
          ⟨CloseOutcome.panicked "inode state is already closed",
            f2.decRef, st, false⟩
        | _ => ⟨CloseOutcome.ret 0, f2.decRef, SockState.closed, true⟩

/-! Helper lemmas about the backlog rendezvous. -/

theorem normalizeAddrPort_of_not4in6 {x : AddrPort}
    (h : x.addr.Is4In6 = false) : normalizeAddrPort x = x := by
  simp [normalizeAddrPort, h]

/-! Theorems for the individual claims. -/

/-- C1: on a Passive inode with the dummy listener created successfully, a
blocking Connect whose external dial fails with errno e returns e, while a
non-blocking Connect returns the errno of the loopback connect to the dummy
listener, for every external dial outcome. -/
theorem connect_blocking_vs_nonblocking
    (f : FDState) (b0 : Option Nat) (e0 : Nat) (addr : AddrPort)
    (env : ConnectEnv) (hf : f.closing = false) (h1 : env.fcntlOk = true)
    (h2 : env.getBindFail = false) (h3 : env.getBindErrno = 0)
    (h4 : env.newBindOk = true) (h5 : env.bindEphOk = true)
    (h6 : env.casOk = true) (h7 : env.dummyOk = true)
    (h8 : env.dummyAcceptFail = false) :
    (∀ e, env.nonblock = false → env.dial = SysResult.errno e → e ≠ 0 →
      env.cas2Ok = true →
      (connectOp f (SockState.passive b0 e0) addr env).result = OpResult.ret e)
    ∧ (env.nonblock = true →
      (connectOp f (SockState.passive b0 e0) addr env).result
        = OpResult.ret env.dummyErrno) := by
  constructor
  · intro e hnb hd he hc
    cases b0 <;>
      simp [connectOp, connectCore, connectFinish, FDState.incRefOk,
        hf, h1, h2, h3, h4, h5, h6, h7, h8, hnb, hd, he, hc]
  · intro hnb
    cases b0 <;> cases env.dial <;>
      simp [connectOp, connectCore, connectFinish, FDState.incRefOk,
        hf, h1, h2, h3, h4, h5, h6, h7, h8, hnb]

def envBlockingRefused : ConnectEnv :=
  ⟨true, false, false, 0, 5, true, true, true, true, false,
    SysResult.errno ECONNREFUSED, true, false, 0, 77, SockState.closed⟩

def envNonblocking : ConnectEnv :=
  { envBlockingRefused with nonblock := true, dummyErrno := EINPROGRESS }

theorem connect_blocking_vs_nonblocking_witness :
    (connectOp ⟨1, false⟩ (SockState.passive none 0) ⟨⟨IPKind.v4, 1⟩, 80⟩
        envBlockingRefused).result = OpResult.ret ECONNREFUSED
    ∧ (connectOp ⟨1, false⟩ (SockState.passive none 0) ⟨⟨IPKind.v4, 1⟩, 80⟩
        envNonblocking).result = OpResult.ret EINPROGRESS :=
  ⟨(connect_blocking_vs_nonblocking ⟨1, false⟩ none 0 ⟨⟨IPKind.v4, 1⟩, 80⟩
      envBlockingRefused rfl rfl rfl rfl rfl rfl rfl rfl rfl).1
      ECONNREFUSED rfl rfl (by decide) rfl,
    (connect_blocking_vs_nonblocking ⟨1, false⟩ none 0 ⟨⟨IPKind.v4, 1⟩, 80⟩
      envNonblocking rfl rfl rfl rfl rfl rfl rfl rfl rfl).2 rfl⟩

/-- C2: the Closed state is terminal.  Connect, Bind, Listen and Accept on
a Closed inode return EBADF, leave the state Closed and attempt no CAS on
the state slot, and Close never attempts a CAS over a Closed state either. -/
theorem closed_state_terminal (f : FDState) (addr : AddrPort) (domain : Nat)
    (backlog : Int) (m : BacklogMap) (ce : ConnectEnv) (be : BindEnv)
    (le : ListenEnv) (ae : AcceptEnv) (cle : CloseEnv) :
    ((connectOp f SockState.closed addr ce).result = OpResult.ret EBADF
      ∧ (connectOp f SockState.closed addr ce).state = SockState.closed
      ∧ (connectOp f SockState.closed addr ce).casAttempted = false)
    ∧ ((bindOp f SockState.closed domain addr be).result = OpResult.ret EBADF
      ∧ (bindOp f SockState.closed domain addr be).state = SockState.closed
      ∧ (bindOp f SockState.closed domain addr be).casAttempted = false)
    ∧ ((listenOp f SockState.closed backlog le).result = OpResult.ret EBADF
      ∧ (listenOp f SockState.closed backlog le).state = SockState.closed
      ∧ (listenOp f SockState.closed backlog le).casAttempted = false)
    ∧ ((acceptOp f SockState.closed m ae).outcome
        = AcceptOutcome.err (OpResult.ret EBADF)
      ∧ (acceptOp f SockState.closed m ae).state = SockState.closed
      ∧ (acceptOp f SockState.closed m ae).casAttempted = false)
    ∧ ((closeOp f SockState.closed cle).state = SockState.closed
      ∧ (closeOp f SockState.closed cle).casAttempted = false) := by
  cases hf : f.closing <;> cases hcr : cle.closeRes <;>
    cases hl : cle.lastAlias <;>
      simp [connectOp, bindOp, listenOp, acceptOp, closeOp,
        FDState.incRefOk, FDState.closingIncRef, hf, hcr, hl]

/-- C3: when the external dial fails with a representable errno e and the
second CAS wins, the inode moves from Connecting to Passive with e latched
in the errno field and the temp bind socket carried over; no fd is closed
on this path. -/
theorem dial_failure_latches_errno
    (f : FDState) (b0 : Option Nat) (e0 : Nat) (addr : AddrPort)
    (env : ConnectEnv) (e : Nat) (hf : f.closing = false)
    (h1 : env.fcntlOk = true) (h2 : env.getBindFail = false)
    (h3 : env.getBindErrno = 0) (h4 : env.newBindOk = true)
    (h5 : env.bindEphOk = true) (h6 : env.casOk = true)
    (h7 : env.dummyOk = true) (h8 : env.dummyAcceptFail = false)
    (hd : env.dial = SysResult.errno e) (hc : env.cas2Ok = true) :
    (connectOp f (SockState.passive b0 e0) addr env).state
      = SockState.passive (some (b0.getD env.freshBind)) e
    ∧ (connectOp f (SockState.passive b0 e0) addr env).closedFds = [] := by
  cases b0 <;>
    simp [connectOp, connectCore, connectFinish, FDState.incRefOk,
      hf, h1, h2, h3, h4, h5, h6, h7, h8, hd, hc]

theorem dial_failure_latches_errno_witness :
    (connectOp ⟨1, false⟩ (SockState.passive none 0) ⟨⟨IPKind.v4, 1⟩, 80⟩
        envBlockingRefused).state
      = SockState.passive (some 5) ECONNREFUSED
    ∧ (connectOp ⟨1, false⟩ (SockState.passive none 0) ⟨⟨IPKind.v4, 1⟩, 80⟩
        envBlockingRefused).closedFds = [] :=
  dial_failure_latches_errno ⟨1, false⟩ none 0 ⟨⟨IPKind.v4, 1⟩, 80⟩
    envBlockingRefused ECONNREFUSED rfl rfl rfl rfl rfl rfl rfl rfl rfl rfl rfl

/-- C5: an operation that loses the compare-and-swap on the inode's state
slot returns ERESTART: the Connect CAS installing Connecting, either Bind
CAS installing the new Passive state, and the Listen CAS installing
Listening. -/
theorem cas_loss_returns_erestart
    (f : FDState) (b0 : Option Nat) (e0 : Nat) (addr : AddrPort)
    (backlog : Int) (ce : ConnectEnv) (be : BindEnv) (le : ListenEnv)
    (hf : f.closing = false) :
    (ce.fcntlOk = true → ce.getBindFail = false → ce.getBindErrno = 0 →
      ce.newBindOk = true → ce.bindEphOk = true → ce.casOk = false →
      (connectOp f (SockState.passive b0 e0) addr ce).result
        = OpResult.ret ERESTART)
    ∧ (addr.addr.Is4 = true → be.newBindOk = true → be.bindIncRefOk = true →
      be.bindRes ≠ SysResult.unrepresentable → be.casOk = false →
      (bindOp f (SockState.passive b0 e0) AF_INET addr be).result
        = OpResult.ret ERESTART)
    ∧ (le.bindEphFail = false → le.getBindFail = false → le.getBindErrno = 0 →
      le.lisRes = SysResult.ok → le.casOk = false →
      (listenOp f (SockState.passive b0 e0) backlog le).result
        = OpResult.ret ERESTART) := by
  refine ⟨?_, ?_, ?_⟩
  · intro h1 h2 h3 h4 h5 h6
    cases b0 <;>
      simp [connectOp, connectCore, FDState.incRefOk, hf, h1, h2, h3, h4, h5, h6]
  · intro h1 h2 h3 h4 h5
    cases b0 <;> cases hbr : be.bindRes <;>
      simp [bindOp, bindCore, FDState.incRefOk, hf, h1, h2, h3, hbr, h5, AF_INET,
        AF_INET6] <;>
      simp [hbr] at h4
  · intro h1 h2 h3 h4 h5
    simp [listenOp, FDState.incRefOk, hf, h1, h2, h3, h4, h5]

def ceRestart : ConnectEnv :=
  { envBlockingRefused with casOk := false }

def beRestart : BindEnv := ⟨5, true, true, SysResult.ok, false, SockState.closed⟩

def leRestart : ListenEnv :=
  ⟨false, false, 0, SysResult.ok, true, false, SockState.closed⟩

theorem cas_loss_returns_erestart_witness :
    (connectOp ⟨1, false⟩ (SockState.passive none 0) ⟨⟨IPKind.v4, 1⟩, 80⟩
        ceRestart).result = OpResult.ret ERESTART
    ∧ (bindOp ⟨1, false⟩ (SockState.passive none 0) AF_INET ⟨⟨IPKind.v4, 1⟩, 80⟩
        beRestart).result = OpResult.ret ERESTART
    ∧ (listenOp ⟨1, false⟩ (SockState.passive none 0) 128 leRestart).result
        = OpResult.ret ERESTART :=
  ⟨(cas_loss_returns_erestart ⟨1, false⟩ none 0 ⟨⟨IPKind.v4, 1⟩, 80⟩ 128
      ceRestart beRestart leRestart rfl).1 rfl rfl rfl rfl rfl rfl,
    (cas_loss_returns_erestart ⟨1, false⟩ none 0 ⟨⟨IPKind.v4, 1⟩, 80⟩ 128
      ceRestart beRestart leRestart rfl).2.1 rfl rfl rfl (by decide) rfl,
    (cas_loss_returns_erestart ⟨1, false⟩ none 0 ⟨⟨IPKind.v4, 1⟩, 80⟩ 128
      ceRestart beRestart leRestart rfl).2.2 rfl rfl rfl rfl rfl⟩

/-- C4 counterexample: Socket.Errno does not reset the latched errno, so
the retrieval is not one-shot.  On a live fd whose inode is Passive with
latched ECONNREFUSED, the first retrieval returns ECONNREFUSED and so does
a second retrieval on the state the first one left behind — the claim's
"subsequent retrieval returns 0" fails at this input. -/
theorem errno_second_retrieval_counterexample :
    (errnoOp ⟨1, false⟩ (SockState.passive (some 7) ECONNREFUSED)).1
      = ECONNREFUSED
    ∧ (errnoOp ⟨1, false⟩
        (errnoOp ⟨1, false⟩ (SockState.passive (some 7) ECONNREFUSED)).2).1
      = ECONNREFUSED
    ∧ ECONNREFUSED ≠ 0 := by decide

/-- C4 (amended): after a failed dial latches errno e into the Passive
state, every Errno retrieval on a live fd returns e and leaves the state
unchanged; in particular the second retrieval also returns e, not 0. -/
theorem errno_latched_every_retrieval (f : FDState) (b : Option Nat)
    (e : Nat) (h : f.closing = false) :
    (errnoOp f (SockState.passive b e)).1 = e
    ∧ (errnoOp f (SockState.passive b e)).2 = SockState.passive b e := by
  simp [errnoOp, FDState.incRefOk, h]

theorem errno_latched_every_retrieval_witness :
    (errnoOp ⟨1, false⟩ (SockState.passive none 111)).1 = 111
    ∧ (errnoOp ⟨1, false⟩ (SockState.passive none 111)).2
      = SockState.passive none 111 :=
  errno_latched_every_retrieval ⟨1, false⟩ none 111 rfl

/-- C6 counterexample: Listen clamps the backlog to a minimum of 8 before
sizing the channel, so for backlog 1 the accept-to-dispatch channel has
capacity 16, not 2 x 1. -/
theorem listen_buffer_capacity_counterexample :
    (listenOp ⟨1, false⟩ (SockState.passive none 0) 1
        ⟨false, false, 0, SysResult.ok, true, true, SockState.closed⟩).bufferCap
      = some 16
    ∧ ¬ (16 : Int) = 2 * 1 := by decide

/-- C6 (amended): whenever Listen creates the accept-to-dispatch buffer
channel, its capacity is 2 x max(backlog, 8), where backlog is the value
the target passed to listen(2). -/
theorem listen_buffer_capacity_clamped (f : FDState) (st : SockState)
    (backlog : Int) (env : ListenEnv) (c : Int)
    (h : (listenOp f st backlog env).bufferCap = some c) :
    c = 2 * max backlog 8 := by
  unfold listenOp at h
  repeat' split at h
  all_goals simp at h
  all_goals omega

theorem listen_buffer_capacity_clamped_witness :
    (16 : Int) = 2 * max 1 8 :=
  listen_buffer_capacity_clamped ⟨1, false⟩ (SockState.passive none 0) 1
    ⟨false, false, 0, SysResult.ok, true, true, SockState.closed⟩ 16 (by decide)

/-- C8: once a first Close succeeds it sets the fd's closing bit, so a
second Close on the same fd fails its ClosingIncRef and returns EBADF. -/
theorem close_twice_ebadf (f : FDState) (st st2 : SockState)
    (env env2 : CloseEnv) (h : f.closing = false) :
    (closeOp f st env).fd.closing = true
    ∧ (closeOp (closeOp f st env).fd st2 env2).outcome
      = CloseOutcome.ret EBADF := by
  have h1 : (closeOp f st env).fd.closing = true := by
    cases hcr : env.closeRes <;> cases hl : env.lastAlias <;> cases st <;>
      simp [closeOp, FDState.closingIncRef, FDState.decRef, h, hcr, hl]
  have h2 : ∀ g : FDState, g.closing = true →
      (closeOp g st2 env2).outcome = CloseOutcome.ret EBADF := by
    intro g hg
    simp [closeOp, FDState.closingIncRef, hg]
  exact ⟨h1, h2 _ h1⟩

theorem close_twice_ebadf_witness :
    (closeOp ⟨1, false⟩ (SockState.passive none 0) ⟨SysResult.ok, true⟩).fd.closing
      = true
    ∧ (closeOp (closeOp ⟨1, false⟩ (SockState.passive none 0)
          ⟨SysResult.ok, true⟩).fd
        SockState.closed ⟨SysResult.ok, true⟩).outcome
      = CloseOutcome.ret EBADF :=
  close_twice_ebadf ⟨1, false⟩ (SockState.passive none 0) SockState.closed
    ⟨SysResult.ok, true⟩ ⟨SysResult.ok, true⟩ rfl

/-- C9: CreateSocket rejects every domain other than AF_INET and AF_INET6
with the unsupported-domain error, before any socket or inode is created. -/
theorem createSocket_rejects_unsupported_domain (domain typ : Nat)
    (env : CreateEnv) (h4 : domain ≠ AF_INET) (h6 : domain ≠ AF_INET6) :
    createSocket domain typ env = CreateResult.err "unsupported domain" := by
  unfold createSocket
  rw [if_pos ⟨h4, h6⟩]

theorem createSocket_rejects_unsupported_domain_witness :
    createSocket 1 1 ⟨true, true, 3⟩ = CreateResult.err "unsupported domain" :=
  createSocket_rejects_unsupported_domain 1 1 ⟨true, true, 3⟩
    (by decide) (by decide)

/-- C10: a Bind that reaches the address-family check (live fd, state not
Closed) with an AF_INET socket and a non-IPv4 address, or an AF_INET6
socket and a non-IPv6 address, returns EINVAL, leaves the state unchanged,
creates no temp bind socket and attempts no CAS. -/
theorem bind_family_mismatch_einval (f : FDState) (st : SockState)
    (domain : Nat) (addr : AddrPort) (env : BindEnv)
    (hf : f.closing = false) (hst : st ≠ SockState.closed)
    (hmm : (domain = AF_INET ∧ addr.addr.Is4 = false)
      ∨ (domain = AF_INET6 ∧ addr.addr.Is6 = false)) :
    (bindOp f st domain addr env).result = OpResult.ret EINVAL
    ∧ (bindOp f st domain addr env).state = st
    ∧ (bindOp f st domain addr env).createdFds = []
    ∧ (bindOp f st domain addr env).casAttempted = false := by
  rcases hmm with ⟨hd, ha⟩ | ⟨hd, ha⟩ <;> subst hd <;> cases st <;>
    simp [bindOp, FDState.incRefOk, hf, ha, AF_INET, AF_INET6] at hst ⊢

theorem bind_family_mismatch_einval_witness :
    (bindOp ⟨1, false⟩ (SockState.passive none 0) AF_INET ⟨⟨IPKind.v6, 1⟩, 80⟩
        ⟨5, true, true, SysResult.ok, true, SockState.closed⟩).result
      = OpResult.ret EINVAL
    ∧ (bindOp ⟨1, false⟩ (SockState.passive none 0) AF_INET ⟨⟨IPKind.v6, 1⟩, 80⟩
        ⟨5, true, true, SysResult.ok, true, SockState.closed⟩).state
      = SockState.passive none 0
    ∧ (bindOp ⟨1, false⟩ (SockState.passive none 0) AF_INET ⟨⟨IPKind.v6, 1⟩, 80⟩
        ⟨5, true, true, SysResult.ok, true, SockState.closed⟩).createdFds = []
    ∧ (bindOp ⟨1, false⟩ (SockState.passive none 0) AF_INET ⟨⟨IPKind.v6, 1⟩, 80⟩
        ⟨5, true, true, SysResult.ok, true, SockState.closed⟩).casAttempted
      = false :=
  bind_family_mismatch_einval ⟨1, false⟩ (SockState.passive none 0) AF_INET
    ⟨⟨IPKind.v6, 1⟩, 80⟩ ⟨5, true, true, SysResult.ok, true, SockState.closed⟩
    rfl (by decide) (Or.inl ⟨rfl, by decide⟩)

theorem backlogInsert_inv {m : BacklogMap} {a : AddrPort} {p : ProxyM}
    (hm : BacklogInv m) (hp : normalizeAddrPort p.processLocal = a)
    (h4 : p.processLocal.addr.Is4In6 = false) :
    BacklogInv (backlogInsert m a p) := by
  induction m with
  | nil =>
    intro k ps hmem q hq
    simp only [backlogInsert, List.mem_singleton] at hmem
    rw [Prod.mk.injEq] at hmem
    obtain ⟨rfl, rfl⟩ := hmem
    simp only [List.mem_singleton] at hq
    subst hq
    exact ⟨hp, h4⟩
  | cons hd tl ih =>
    obtain ⟨k0, ps0⟩ := hd
    have hm0 : BacklogInv tl := fun k ps hmem =>
      hm k ps (List.mem_cons_of_mem _ hmem)
    have hhd : ∀ q ∈ ps0, normalizeAddrPort q.processLocal = k0
        ∧ q.processLocal.addr.Is4In6 = false :=
      hm k0 ps0 (List.mem_cons_self _ _)
    intro k ps hmem q hq
    by_cases hk : k0 = a
    · subst hk
      simp only [backlogInsert, if_pos rfl] at hmem
      rcases List.mem_cons.mp hmem with heq | htl
      · rw [Prod.mk.injEq] at heq
        obtain ⟨rfl, rfl⟩ := heq
        rcases List.mem_append.mp hq with h1 | h2
        · exact hhd q h1
        · simp only [List.mem_singleton] at h2
          subst h2
          exact ⟨hp, h4⟩
      · exact hm k ps (List.mem_cons_of_mem _ htl) q hq
    · simp only [backlogInsert, if_neg hk] at hmem
      rcases List.mem_cons.mp hmem with heq | hins
      · rw [Prod.mk.injEq] at heq
        obtain ⟨rfl, rfl⟩ := heq
        exact hhd q hq
      · exact ih hm0 k ps hins q hq

theorem backlogTake_spec {a : AddrPort} :
    ∀ {m : BacklogMap} {p : ProxyM} {m2 : BacklogMap},
      backlogTake m a = some (p, m2) →
      (∃ ps, (a, ps) ∈ m ∧ p ∈ ps)
      ∧ ∀ k ps, (k, ps) ∈ m2 → ∀ q ∈ ps, ∃ ps0, (k, ps0) ∈ m ∧ q ∈ ps0 := by
  intro m
  induction m with
  | nil => intro p m2 h; simp [backlogTake] at h
  | cons hd tl ih =>
    intro p m2 h
    obtain ⟨k0, ps0⟩ := hd
    by_cases hk : k0 = a
    · subst hk
      cases ps0 with
      | nil => simp [backlogTake] at h
      | cons q0 qs0 =>
        simp only [backlogTake, if_true, eq_self_iff_true, Option.some.injEq,
          Prod.mk.injEq] at h
        obtain ⟨h1, h2⟩ := h
        subst h2
        constructor
        · refine ⟨q0 :: qs0, List.mem_cons_self _ _, ?_⟩
          rw [← h1]
          exact List.mem_cons_self _ _
        · intro k ps hmem q hq
          rcases List.mem_cons.mp hmem with heq | htl
          · rw [Prod.mk.injEq] at heq
            refine ⟨q0 :: qs0, ?_, ?_⟩
            · rw [heq.1]
              exact List.mem_cons_self _ _
            · rw [heq.2] at hq
              exact List.mem_cons_of_mem _ hq
          · exact ⟨ps, List.mem_cons_of_mem _ htl, hq⟩
    · simp only [backlogTake, if_neg hk] at h
      cases htl : backlogTake tl a with
      | none => rw [htl] at h; simp at h
      | some pr =>
        obtain ⟨p1, rest1⟩ := pr
        rw [htl] at h
        simp only [Option.some.injEq, Prod.mk.injEq] at h
        obtain ⟨rfl, rfl⟩ := h
        obtain ⟨⟨ps1, hmem1, hp1⟩, hsub⟩ := ih htl
        constructor
        · exact ⟨ps1, List.mem_cons_of_mem _ hmem1, hp1⟩
        · intro k ps hmem q hq
          rcases List.mem_cons.mp hmem with heq | hrest
          · rw [Prod.mk.injEq] at heq
            obtain ⟨rfl, rfl⟩ := heq
            exact ⟨ps, List.mem_cons_self _ _, hq⟩
          · obtain ⟨ps2, h2, hq2⟩ := hsub k ps hrest q hq
            exact ⟨ps2, List.mem_cons_of_mem _ h2, hq2⟩

/-- C7: the dispatch loop registers each proxy in the backlog map under its
normalized process-side local address, preserving the backlog invariant,
and every Accept that returns a socket paired with a proxy receives a proxy
whose process-side local address equals the normalized peer address that
accept4 reported, so the comparison in the assertion holds and the backlog
invariant is preserved. -/
theorem accept_proxy_local_matches
    (f : FDState) (st : SockState) (m : BacklogMap) (env : AcceptEnv)
    (p : ProxyM) (cst : SockState) (p2 : ProxyM) (aOk : Bool)
    (hinv : BacklogInv m) :
    (p.processLocal.addr.Is4In6 = false → BacklogInv (dispatchRegister m p))
    ∧ ((acceptOp f st m env).outcome = AcceptOutcome.child cst p2 aOk →
      p2.processLocal = normalizeAddrPort env.peerRaw ∧ aOk = true
      ∧ BacklogInv (acceptOp f st m env).backlog) := by
  constructor
  · intro h4
    exact backlogInsert_inv hinv rfl h4
  · intro hout
    by_cases hf2 : f.closing
    · simp [acceptOp, FDState.incRefOk, hf2] at hout
    · cases st with
      | passive b e => simp [acceptOp, FDState.incRefOk, hf2] at hout
      | connected q => simp [acceptOp, FDState.incRefOk, hf2] at hout
      | connecting b pe => simp [acceptOp, FDState.incRefOk, hf2] at hout
      | closed => simp [acceptOp, FDState.incRefOk, hf2] at hout
      | listening active =>
        cases active with
        | false => simp [acceptOp, FDState.incRefOk, hf2] at hout
        | true =>
          cases hacc : env.accept4Res with
          | errno e => simp [acceptOp, FDState.incRefOk, hf2, hacc] at hout
          | unrepresentable =>
            simp [acceptOp, FDState.incRefOk, hf2, hacc] at hout
          | ok =>
            cases htk : backlogTake m (normalizeAddrPort env.peerRaw) with
            | none => simp [acceptOp, FDState.incRefOk, hf2, hacc, htk] at hout
            | some pr =>
              obtain ⟨p3, m3⟩ := pr
              cases hfs : env.fstatOk with
              | false =>
                simp [acceptOp, FDState.incRefOk, hf2, hacc, htk, hfs] at hout
              | true =>
                obtain ⟨⟨ps, hmem, hp3⟩, hsub⟩ := backlogTake_spec htk
                obtain ⟨hnorm, h4⟩ := hinv _ _ hmem p3 hp3
                have hloc : p3.processLocal = normalizeAddrPort env.peerRaw :=
                  (normalizeAddrPort_of_not4in6 h4).symm.trans hnorm
                have hred : acceptOp f (SockState.listening true) m env
                    = ⟨AcceptOutcome.child (SockState.connected p3.pid) p3
                        (decide (p3.processLocal = normalizeAddrPort env.peerRaw)),
                      SockState.listening true, m3, false⟩ := by
                  simp [acceptOp, FDState.incRefOk, hf2, hacc, htk, hfs]
                rw [hred] at hout
                injection hout with h1 h2 h3
                subst h2
                refine ⟨hloc, ?_, ?_⟩
                · rw [← h3]
                  exact decide_eq_true hloc
                · rw [hred]
                  intro k ps2 hmem2 q hq2
                  obtain ⟨ps0, h0, hq0⟩ := hsub k ps2 hmem2 q hq2
                  exact hinv k ps0 h0 q hq0

def aW : AddrPort := ⟨⟨IPKind.v4, 1⟩, 80⟩

def pW : ProxyM := ⟨aW, 9⟩

def mW : BacklogMap := [(aW, [pW])]

def aeW : AcceptEnv := ⟨SysResult.ok, aW, true⟩

theorem mW_inv : BacklogInv mW := by
  intro k ps hmem q hq
  simp only [mW, List.mem_singleton] at hmem
  rw [Prod.mk.injEq] at hmem
  rw [hmem.2] at hq
  simp only [List.mem_singleton] at hq
  rw [hq]
  rw [hmem.1]
  exact ⟨by decide, by decide⟩

theorem accept_proxy_local_matches_witness :
    BacklogInv (dispatchRegister mW pW)
    ∧ ((acceptOp ⟨1, false⟩ (SockState.listening true) mW aeW).outcome
        = AcceptOutcome.child (SockState.connected 9) pW true →
      pW.processLocal = normalizeAddrPort aeW.peerRaw ∧ (true : Bool) = true
      ∧ BacklogInv (acceptOp ⟨1, false⟩ (SockState.listening true) mW aeW).backlog) :=
  have h := accept_proxy_local_matches ⟨1, false⟩ (SockState.listening true)
    mW aeW pW (SockState.connected 9) pW true mW_inv
  ⟨h.1 (by decide), h.2⟩

end SubtraceSocket
